import Mathlib

/-!
Verification of the condominium expense-analytics repository.

Shallow embedding of the pure cores of:
* `src/ingestion/semantic_chunker.py` (chunk builder),
* `src/ingestion/indexer.py` (store-adapter metadata flattening),
* `src/query/retriever.py` (query router and fallback suggestions),
* `src/query/claude_client.py` (answer composer / structured summary),
* `src/web/app.py` (conversation buffer of the query endpoint).

Monetary amounts are modelled as rationals (the spec's "decimal,
currency-minor-unit-safe" reading of the Python floats); the random
`uuid4` suffix of chunk ids and the nondeterministic iteration order of
Python `set` are abstracted as, respectively, the deterministic id prefix
and first-occurrence order.  External collaborators (the vector store and
the text-completion service) are parameters of the definitions that call
them, matching the spec's "interfaces only" scoping.
-/

namespace Condo

/-- JSON-like metadata value, as produced by the chunk builder and stored by
the indexer.  Nested lists and mappings are representable, which is what
claim C5 is about. -/
inductive Val where
  | str : String → Val
  | num : ℚ → Val
  | boolean : Bool → Val
  | arr : List Val → Val
  | dict : List (String × Val) → Val

/-- A metadata mapping: insertion-ordered key/value pairs (Python `dict`). -/
abbrev Meta := List (String × Val)

/-- Scalar (non-nested) metadata values. -/
def Val.isScalar : Val → Bool
  | .str _ => true
  | .num _ => true
  | .boolean _ => true
  | .arr _ => false
  | .dict _ => false

/-- Numeric metadata values. -/
def Val.isNum : Val → Bool
  | .num _ => true
  | _ => false

/-- Normalized expense record (`ExpenseRecord` of the spec; the dict shape
consumed by `SemanticChunker`). -/
structure Expense where
  id : String
  description : String
  amount : ℚ
  vendor : String
  category : String
  subcategory : String
  month_year : String
  document : String
  currency : String

/-- A semantic chunk (`semantic_chunker.py` output shape). -/
structure Chunk where
  chunk_id : String
  content : String
  chunk_type : String
  metadata : Meta

/-- Count/total aggregate used by the grouping dicts
(`{'count': .., 'total': ..}` in the Python sources). -/
structure GroupAgg where
  count : Nat
  total : ℚ

/-- Upsert into an insertion-ordered grouping dict: bump the count and add
the amount for key `k` (Python `d[k]['count'] += 1; d[k]['total'] += a`). -/
def bumpGroup : List (String × GroupAgg) → String → ℚ → List (String × GroupAgg)
  | [], k, a => [(k, ⟨1, a⟩)]
  | (k', g) :: rest, k, a =>
    if k' = k then (k', ⟨g.count + 1, g.total + a⟩) :: rest
    else (k', g) :: bumpGroup rest k a

/-- Distinct values of `f` over a list in first-occurrence order
(the key order of a Python `dict` built by insertion). -/
def firstKeys (f : Expense → String) : List Expense → List String
  | [] => []
  | e :: es => f e :: (firstKeys f es).filter (fun k => k ≠ f e)

/-- Python `str.title()`: uppercase every letter that starts a run of
letters, lowercase the other letters. -/
def titleChars : List Char → Bool → List Char
  | [], _ => []
  | c :: cs, startWord =>
    if c.isAlpha then (if startWord then c.toUpper else c.toLower) :: titleChars cs false
    else c :: titleChars cs true

/-- Python `str.title()` on strings. -/
def pyTitle (s : String) : String := (titleChars s.data true).asString

/-- Python `str.lower()` (ASCII case mapping, which covers every string
the sources lowercase). -/
def pyLower (s : String) : String := (s.data.map Char.toLower).asString

/-- Split a character list at every occurrence of `sep`
(Python `str.split` with a one-character separator). -/
def splitChar (sep : Char) : List Char → List (List Char)
  | [] => [[]]
  | c :: rest =>
    if c = sep then [] :: splitChar sep rest
    else
      match splitChar sep rest with
      | g :: gs => (c :: g) :: gs
      | [] => [[c]]

/-- Python `s.split('-')`. -/
def pySplitDash (s : String) : List String :=
  (splitChar '-' s.data).map (fun l => l.asString)

/-- Python `str.replace` with one-character arguments. -/
def replaceChar (old new : Char) (s : String) : String :=
  (s.data.map (fun c => if c = old then new else c)).asString

/-- Python `s[:n]`. -/
def strTake (s : String) (n : Nat) : String := (s.data.take n).asString

/-- Group a reversed digit list into blocks of three (for the thousands
separator of Python format `:,`). -/
def chunk3 : List Char → List (List Char)
  | a :: b :: c :: rest => [a, b, c] :: chunk3 rest
  | [] => []
  | l => [l]

/-- Insert `,` thousands separators into a digit string. -/
def groupThousands (s : String) : String :=
  String.intercalate "," (((chunk3 s.data.reverse).map List.reverse).reverse.map
    (fun l => String.mk l))

/-- Two-digit zero-padded rendering of a natural number below 100. -/
def twoDigits (n : Nat) : String :=
  if n < 10 then "0" ++ toString n else toString n

/-- Integer cents of a rational amount, rounded half-up: equals
`round (q * 100)`, stated on the numerator/denominator so that it
evaluates by kernel reduction. -/
def roundCents (q : ℚ) : Int := Int.fdiv (200 * q.num + (q.den : Int)) (2 * (q.den : Int))

/-- Python `f"{amount:,.2f}"`: fixed two decimals with thousands
separators.  The binary-float rounding of Python is abstracted as exact
rounding of the rational to cents. -/
def formatAmount (q : ℚ) : String :=
  let c : Int := roundCents q
  let n : Nat := c.natAbs
  (if c < 0 then "-" else "")
    ++ groupThousands (toString (n / 100)) ++ "." ++ twoDigits (n % 100)

/-- The `"R$ {amount:,.2f}"` rendering used throughout the chunker. -/
def amountFormatted (q : ℚ) : String := "R$ " ++ formatAmount q

/-- The `month_names` table shared by `semantic_chunker.py` and
`retriever.py`. -/
def monthNames : List (String × String) :=
  [("01", "January"), ("02", "February"), ("03", "March"), ("04", "April"),
   ("05", "May"), ("06", "June"), ("07", "July"), ("08", "August"),
   ("09", "September"), ("10", "October"), ("11", "November"), ("12", "December")]

/-- `month_names.get(month_num, month_num)`. -/
def monthNameOf (mm : String) : String := (monthNames.lookup mm).getD mm

/-- `_format_month_name` of `retriever.py` (also the `period` rendering of
the chunker): `"2024-03" ↦ "March 2024"`, anything that does not split into
exactly two `-`-separated parts is returned unchanged. -/
def formatMonthName (monthCode : String) : String :=
  match pySplitDash monthCode with
  | [year, mm] => monthNameOf mm ++ " " ++ year
  | _ => monthCode

/-- The optional `"Period: {MonthName} {Year}"` clause of an individual
expense chunk (`create_expense_chunk`, temporal context). -/
def periodOf (monthYear : String) : Option String :=
  match pySplitDash monthYear with
  | [year, mm] => some ("Period: " ++ monthNameOf mm ++ " " ++ year)
  | _ => none

/-- First clause of an individual expense chunk: description, amount and
(if non-empty) vendor. -/
def expenseMainPart (e : Expense) : String :=
  if e.vendor ≠ "" then
    e.description ++ " - " ++ amountFormatted e.amount ++ " paid to " ++ e.vendor
  else
    e.description ++ " - " ++ amountFormatted e.amount

/-- The `content_parts` list of `create_expense_chunk`: main clause,
category clause when the category is not `'other'`, subcategory clause when
additionally the subcategory is not `'miscellaneous'`, period clause when
the month key splits as `YYYY-MM`. -/
def contentParts (e : Expense) : List String :=
  [expenseMainPart e]
    ++ (if e.category ≠ "other" then
          ["Category: " ++ pyTitle e.category]
            ++ (if e.subcategory ≠ "miscellaneous" then
                  ["Subcategory: " ++ pyTitle (replaceChar '_' ' ' e.subcategory)]
                else [])
        else [])
    ++ (periodOf e.month_year).toList

/-- `create_expense_chunk` (the random uuid suffix of `chunk_id` is
abstracted away; no claim mentions chunk ids). -/
def createExpenseChunk (e : Expense) : Chunk :=
  { chunk_id := "expense_" ++ e.id
    content := String.intercalate ". " (contentParts e) ++ "."
    chunk_type := "individual_expense"
    metadata :=
      [("expense_id", .str e.id), ("description", .str e.description),
       ("amount", .num e.amount), ("amount_formatted", .str (amountFormatted e.amount)),
       ("vendor", .str e.vendor), ("category", .str e.category),
       ("subcategory", .str e.subcategory), ("month_year", .str e.month_year),
       ("document", .str e.document), ("currency", .str e.currency)] }

/-- Sum of the amounts of a list of expenses. -/
def sumAmounts (es : List Expense) : ℚ := (es.map (·.amount)).sum

/-- Grouping dict keyed by a string field of the expense. -/
def breakdownBy (f : Expense → String) (es : List Expense) : List (String × GroupAgg) :=
  es.foldl (fun m e => bumpGroup m (f e) e.amount) []

/-- Distinct non-empty vendors of a group, first-occurrence order (Python
builds a `set`; its iteration order is abstracted as first occurrence). -/
def vendorList (es : List Expense) : List String :=
  firstKeys (·.vendor) (es.filter (fun e => e.vendor ≠ ""))

/-- A grouping aggregate as nested metadata (`{'count': .., 'total': ..}`). -/
def aggToVal (g : GroupAgg) : Val :=
  .dict [("count", .num g.count), ("total", .num g.total)]

/-- The vendor clause of a category summary: up to 5 vendors, with an
`"and N others"` suffix when truncated. -/
def categoryVendorText (vendors : List String) : String :=
  let shown := vendors.take 5
  if shown.length < vendors.length then
    "Main vendors: " ++ String.intercalate ", " shown ++ " and "
      ++ toString (vendors.length - shown.length) ++ " others"
  else
    "Vendors: " ++ String.intercalate ", " shown

/-- `create_category_summary_chunk`. -/
def createCategorySummaryChunk (category : String) (exps : List Expense)
    (monthYear : String) : Chunk :=
  let total := sumAmounts exps
  let count := exps.length
  let subcats := breakdownBy (·.subcategory) exps
  let vendors := vendorList exps
  let period := formatMonthName monthYear
  let parts :=
    [pyTitle category ++ " expenses for " ++ period ++ ": R$ " ++ formatAmount total
      ++ " total across " ++ toString count ++ " items"]
      ++ (if subcats.length > 1 then
            ["Breakdown: " ++ String.intercalate ", " (subcats.map (fun p =>
              pyTitle (replaceChar '_' ' ' p.1) ++ ": R$ " ++ formatAmount p.2.total))]
          else [])
      ++ (if vendors ≠ [] then [categoryVendorText vendors] else [])
  { chunk_id := "category_" ++ category ++ "_" ++ monthYear
    content := String.intercalate ". " parts ++ "."
    chunk_type := "category_summary"
    metadata :=
      [("category", .str category), ("month_year", .str monthYear),
       ("period", .str period), ("total_amount", .num total),
       ("expense_count", .num count),
       ("subcategories", .dict (subcats.map (fun p => (p.1, aggToVal p.2)))),
       ("vendors", .arr (vendors.map .str)), ("currency", .str "BRL")] }

/-- `create_monthly_summary_chunk`. -/
def createMonthlySummaryChunk (monthYear : String) (exps : List Expense) : Chunk :=
  let total := sumAmounts exps
  let count := exps.length
  let cats := breakdownBy (·.category) exps
  let allVendors := vendorList exps
  let period := formatMonthName monthYear
  let sortedCats := cats.mergeSort (fun a b => decide (b.2.total ≤ a.2.total))
  let topCats := (sortedCats.take 3).map (fun p =>
    pyTitle (replaceChar '_' ' ' p.1) ++ ": R$ " ++ formatAmount p.2.total)
  let parts :=
    ["Monthly summary for " ++ period ++ ": R$ " ++ formatAmount total
      ++ " total expenses across " ++ toString count ++ " items"]
      ++ (if topCats ≠ [] then ["Top categories: " ++ String.intercalate ", " topCats] else [])
      ++ (if allVendors ≠ [] then ["Total vendors: " ++ toString allVendors.length] else [])
  { chunk_id := "monthly_" ++ monthYear
    content := String.intercalate ". " parts ++ "."
    chunk_type := "monthly_summary"
    metadata :=
      [("month_year", .str monthYear), ("period", .str period),
       ("total_amount", .num total), ("expense_count", .num count),
       ("categories", .dict (cats.map (fun p => (p.1, aggToVal p.2)))),
       ("vendor_count", .num allVendors.length), ("currency", .str "BRL")] }

/-- The chunk built for one vendor with its grouped transactions
(`create_vendor_chunks` loop body). -/
def createVendorChunk (vendor : String) (exps : List Expense) : Chunk :=
  let total := sumAmounts exps
  let monthly := breakdownBy (·.month_year) exps
  let cats := firstKeys (·.category) exps
  let months := (monthly.map (·.1)).mergeSort (fun a b => decide (a ≤ b))
  let parts :=
    [vendor ++ ": R$ " ++ formatAmount total ++ " total across "
      ++ toString exps.length ++ " transactions"]
      ++ (if monthly.length > 1 then
            ["Monthly breakdown: " ++ String.intercalate ", " (months.map (fun m =>
              m ++ ": R$ " ++ formatAmount (((monthly.lookup m).getD ⟨0, 0⟩).total)))]
          else [])
      ++ (if cats.length > 1 then
            ["Categories: " ++ String.intercalate ", " (cats.map (fun c =>
              pyTitle (replaceChar '_' ' ' c)))]
          else [])
  { chunk_id := "vendor_" ++ replaceChar ' ' '_' vendor
    content := String.intercalate ". " parts ++ "."
    chunk_type := "vendor_summary"
    metadata :=
      [("vendor", .str vendor), ("total_amount", .num total),
       ("transaction_count", .num exps.length),
       ("monthly_data", .dict (monthly.map (fun p => (p.1, aggToVal p.2)))),
       ("categories", .arr (cats.map .str)), ("currency", .str "BRL")] }

/-- `create_vendor_chunks`: group by vendor, skipping records with an empty
vendor, and emit a chunk only for vendors with at least two transactions. -/
def createVendorChunks (es : List Expense) : List Chunk :=
  let withVendor := es.filter (fun e => e.vendor ≠ "")
  (firstKeys (·.vendor) withVendor).filterMap (fun v =>
    let g := withVendor.filter (fun e => e.vendor = v)
    if 2 ≤ g.length then some (createVendorChunk v g) else none)

/-- The category-summary chunks emitted for one month group
(`process_expenses_to_chunks`, inner loop): one chunk per category that has
at least two records in the month. -/
def categoryChunksForMonth (monthYear : String) (grp : List Expense) : List Chunk :=
  (firstKeys (·.category) grp).filterMap (fun c =>
    let cg := grp.filter (fun e => e.category = c)
    if 2 ≤ cg.length then some (createCategorySummaryChunk c cg monthYear) else none)

/-- `process_expenses_to_chunks` (pure part: file I/O stripped): individual
chunks, then per month a monthly summary followed by that month's category
summaries, then the vendor chunks. -/
def processExpensesToChunks (es : List Expense) : List Chunk :=
  if es.isEmpty then []
  else
    es.map createExpenseChunk
      ++ (firstKeys (·.month_year) es).flatMap (fun m =>
          let grp := es.filter (fun e => e.month_year = m)
          createMonthlySummaryChunk m grp :: categoryChunksForMonth m grp)
      ++ createVendorChunks es

/-! ### Query router (`src/query/retriever.py`) -/

/-- Substring test on character lists: `p` occurs contiguously in the
second list (Python `p in s`). -/
def charsContain (p : List Char) : List Char → Bool
  | [] => p.isEmpty
  | c :: rest => p.isPrefixOf (c :: rest) || charsContain p rest

/-- Python `pat in s` on strings. -/
def strContains (s pat : String) : Bool := charsContain pat.data s.data

/-- The `month_mapping` of `search_natural_language`: English month names
to `"YYYY-MM"` keys with the fixed reference year 2024, in the dict's
insertion order. -/
def monthMapping : List (String × String) :=
  [("january", "2024-01"), ("february", "2024-02"), ("march", "2024-03"),
   ("april", "2024-04"), ("may", "2024-05"), ("june", "2024-06"),
   ("july", "2024-07"), ("august", "2024-08"), ("september", "2024-09"),
   ("october", "2024-10"), ("november", "2024-11"), ("december", "2024-12")]

/-- Month detection of the router: the canonical key of the first month
name (in `month_mapping` order) occurring in the lowercased question. -/
def detectMonth (ql : String) : Option String :=
  (monthMapping.find? (fun p => strContains ql p.1)).map (·.2)

/-- `salary_keywords`. -/
def salaryKeywords : List String :=
  ["salary", "personnel", "payroll", "staff", "employee", "wages"]

/-- The keyword list used to match an existing category against a
personnel intent (note: without `wages`). -/
def personnelCatWords : List String :=
  ["personnel", "salary", "payroll", "staff", "employee"]

/-- Vendor-intent keywords. -/
def vendorKeywords : List String := ["cemig", "vendor", "paid to", "supplier"]

/-- Category-intent keywords. -/
def categoryKeywords : List String :=
  ["power", "electricity", "water", "gas", "elevator", "maintenance",
   "cleaning", "security", "utilities"]

/-- `any(keyword in ql for keyword in kws)`. -/
def hasAnyKeyword (ql : String) (kws : List String) : Bool :=
  kws.any (fun k => strContains ql k)

/-- Known categories that match a personnel keyword (case-insensitively). -/
def personnelCategories (categories : List String) : List String :=
  categories.filter (fun cat => hasAnyKeyword (pyLower cat) personnelCatWords)

/-- The metadata inventory of `get_available_filters` ("known values seen
so far" in the spec's wording). -/
structure Filters where
  categories : List String
  subcategories : List String
  vendors : List String
  months : List String
  chunk_types : List String

/-- Raw reply of the external semantic store's `query` operation
(`{documents, metadatas, distances}` for a single query text). -/
structure RawResult where
  documents : List String
  metadatas : List Meta
  distances : Option (List ℚ)

/-- The external vector store, abstracted: the metadata inventory the
router validates against, and the similarity query. -/
structure Store where
  filters : Filters
  rawQuery : String → Nat → Option (List (String × String)) → RawResult

/-- One formatted search result of `search_expenses`. -/
structure ResultItem where
  rank : Nat
  content : String
  metadata : Meta
  similarity_score : ℚ
  chunk_type : String

/-- The `QueryResult` shape: on a hit `error = none` and the suggestion
lists are empty (the Python dict simply lacks those keys). -/
structure SearchResponse where
  query : String
  total_results : Nat
  results : List ResultItem
  error : Option String := none
  suggestions : List String := []
  reformulated_queries : List String := []

/-- String lookup in a metadata mapping with a default
(`metadata.get(k, d)` where the stored value is a string). -/
def metaStrD (m : Meta) (k d : String) : String :=
  match m.lookup k with
  | some (.str s) => s
  | _ => d

/-- The effective distances list: the store's distances, or all zeros when
absent (`results['distances'] if results['distances'] else [0] * len`). -/
def effDistances (raw : RawResult) : List ℚ :=
  raw.distances.getD (List.replicate raw.documents.length 0)

/-- `enumerate` + formatting loop of `search_expenses`:
`1.0 - distance if distance else 1.0`. -/
def formatItems : Nat → List (String × Meta × ℚ) → List ResultItem
  | _, [] => []
  | i, (doc, meta, d) :: rest =>
    { rank := i + 1
      content := doc
      metadata := meta
      similarity_score := if d = 0 then 1 else 1 - d
      chunk_type := metaStrD meta "chunk_type" "unknown" } :: formatItems (i + 1) rest

/-- The triples `zip(documents, metadatas, distances)` (Python `zip`
truncates to the shortest input). -/
def rawTriples (raw : RawResult) : List (String × Meta × ℚ) :=
  raw.documents.zip (raw.metadatas.zip (effDistances raw))

/-- `search_expenses`: query the store and format; `total_results` is the
number of returned documents. An empty filter dict is passed as no filter. -/
def searchExpenses (st : Store) (q : String) (n : Nat)
    (filters : List (String × String)) : SearchResponse :=
  let raw := st.rawQuery q n (if filters.isEmpty then none else some filters)
  { query := q
    total_results := raw.documents.length
    results := formatItems 0 (rawTriples raw) }

/-- `search_by_month`: month-filtered search. -/
def searchByMonth (st : Store) (monthYear : String) (n : Nat) : SearchResponse :=
  searchExpenses st ("expenses " ++ monthYear ++ " monthly summary") n
    [("month_year", monthYear)]

/-- `list.getD` rendering of Python `xs[i]` on the split month key. -/
def splitPart (s : String) (i : Nat) : String := (pySplitDash s).getD i ""

/-- `_generate_month_suggestions`: intent-preserving rephrasings for the
first two available months plus a generic category question. -/
def generateMonthSuggestions (query : String) (availableMonths : List String) :
    List String :=
  let ql := pyLower query
  let intent :=
    if strContains ql "salary" || strContains ql "personnel" then "expenses by category"
    else if strContains ql "total" || strContains ql "summary" then "monthly summary"
    else "expenses"
  ((availableMonths.take 2).map (fun m =>
      "What were the " ++ intent ++ " for " ++ formatMonthName m ++ "?"))
    ++ ["What categories of expenses do we track?"]

/-- The miss-month response of `search_natural_language`. -/
def monthMissResponse (query requested : String) (availableMonths : List String) :
    SearchResponse :=
  { query := query
    total_results := 0
    results := []
    error := some ("No data available for " ++ splitPart requested 1 ++ "/"
      ++ splitPart requested 0 ++ ". Available months: "
      ++ String.intercalate ", " availableMonths)
    suggestions := generateMonthSuggestions query availableMonths
    reformulated_queries := (availableMonths.take 2).map (fun m =>
      "What were the expenses for " ++ formatMonthName m ++ "?") }

/-- `_generate_category_suggestions`. -/
def generateCategorySuggestions (query : String) (availableCategories : List String) :
    List String :=
  let ql := pyLower query
  let monthContext :=
    match (monthMapping.find? (fun p => strContains ql p.1)).map (·.2) with
    | some code => " in " ++ formatMonthName code
    | none => ""
  ((availableCategories.map (fun cat =>
      "What were the " ++ cat ++ " expenses" ++ monthContext ++ "?"))
    ++ [if monthContext ≠ "" then "What was the total spent" ++ monthContext ++ "?"
        else "What was the total spent across all months?"]).take 3

/-- The miss-category (salary/personnel) response of
`search_natural_language`; the reformulations substitute each matched
salary keyword with each of the first two known categories inside the
original question text, capped at 3. -/
def salaryMissResponse (query : String) (af : Filters) : SearchResponse :=
  { query := query
    total_results := 0
    results := []
    error := some ("No salary/personnel expenses found in data. Available categories: "
      ++ String.intercalate ", " af.categories)
    suggestions := generateCategorySuggestions query af.categories
    reformulated_queries :=
      (((salaryKeywords.filter (fun k => strContains (pyLower query) k)).flatMap (fun k =>
        (af.categories.take 2).map (fun cat => query.replace k cat)))).take 3 }

/-- Python `max` over a list of strings (lexicographic; the router only
calls it on non-empty month lists). -/
def pyMaxStr (l : List String) : String :=
  l.foldl (fun a b => if a ≤ b then b else a) ""

/-- `_generate_general_suggestions`. -/
def generateGeneralSuggestions (af : Filters) : List String :=
  (((if af.categories ≠ [] then
        ["Show me " ++ af.categories.headD "" ++ " expenses"] else [])
    ++ (if af.months ≠ [] then
        ["What was spent in " ++ formatMonthName (pyMaxStr af.months) ++ "?"] else [])
    ++ (if 1 < af.months.length then ["Compare expenses across all months"] else [])
    ++ ["What are the highest individual expenses?"])).take 3

/-- `_suggest_better_queries`: concrete reformulations crossing the first
two known categories with the first two known months, plus a latest-month
total, capped at 3. -/
def suggestBetterQueries (query : String) (af : Filters) : List String :=
  let _ := pyLower query
  (((af.categories.take 2).flatMap (fun cat =>
      (af.months.take 2).map (fun m =>
        "How much was spent on " ++ cat ++ " in " ++ formatMonthName m ++ "?")))
    ++ (if af.months ≠ [] then
        ["What was the total spent in " ++ formatMonthName (pyMaxStr af.months) ++ "?"]
        else [])).take 3

/-- The generic-fallback miss response (`miss-generic`). -/
def genericMissResponse (query : String) (af : Filters) : SearchResponse :=
  { query := query
    total_results := 0
    results := []
    error := some ("No relevant results found. Try searching for: "
      ++ String.intercalate ", " af.categories ++ " or months: "
      ++ String.intercalate ", " af.months)
    suggestions := generateGeneralSuggestions af
    reformulated_queries := suggestBetterQueries query af }

/-- The relevance floor test of the generic branch: no results at all, or
every one of the top-3 results scores below `0.3`. -/
def lowConfidence (r : SearchResponse) : Bool :=
  r.results.isEmpty
    || (r.results.take 3).all (fun item => decide (item.similarity_score < 3 / 10))

/-- The generic fallback branch of `search_natural_language`. -/
def genericBranch (st : Store) (query : String) (af : Filters) : SearchResponse :=
  let results := searchExpenses st query 12 []
  if lowConfidence results then genericMissResponse query af else results

/-- `search_natural_language` after the miss-month check: the salary
check (which fires even when a valid month was detected), then the
strategy dispatch in source order. -/
def afterMonthCheck (st : Store) (query ql : String) (af : Filters)
    (requested : Option String) : SearchResponse :=
  if hasAnyKeyword ql salaryKeywords && (personnelCategories af.categories).isEmpty then
    salaryMissResponse query af
  else
    match requested with
    | some m => searchByMonth st m 15
    | none =>
      if hasAnyKeyword ql vendorKeywords then searchExpenses st query 15 []
      else if hasAnyKeyword ql categoryKeywords then searchExpenses st query 15 []
      else if strContains ql "total" || strContains ql "summary" then
        searchExpenses st query 10 []
      else genericBranch st query af

/-- `search_natural_language`: month detection and validation first, then
the remaining strategies. -/
def searchNaturalLanguage (st : Store) (query : String) : SearchResponse :=
  let ql := pyLower query
  let af := st.filters
  match detectMonth ql with
  | some m =>
    if af.months.contains m then afterMonthCheck st query ql af (some m)
    else monthMissResponse query m af.months
  | none => afterMonthCheck st query ql af none

/-! ### Store-adapter metadata flattening (`src/ingestion/indexer.py`) -/

/-- Python `str(v)` on a metadata value (abstract rendering; the chunker
only ever stores strings under the keys the indexer stringifies, for which
`str` is the identity). -/
def valStr : Val → String
  | .str s => s
  | .num q => toString q
  | .boolean b => if b then "True" else "False"
  | .arr _ => "[nested list]"
  | .dict _ => "\x7bnested dict\x7d"

/-- Python `float(v)` on a metadata value; `none` models the raised
`TypeError`/`ValueError` (the chunk is then skipped by `index_chunks`).
Parsing of numeric strings is not modelled: the chunker never produces
string-valued amounts, and a parsed string would also be stored
numerically. -/
def valFloat : Val → Option ℚ
  | .num q => some q
  | .boolean b => some (if b then 1 else 0)
  | _ => none

/-- Python `int(v)` on a metadata value (truncation toward zero). -/
def valInt : Val → Option Int
  | .num q => some (q.num / (q.den : Int))
  | .boolean b => some (if b then 1 else 0)
  | _ => none

/-- `metadata[k] = str(src[k])` when `k` is present in the source chunk
metadata. -/
def addStrOpt (md src : Meta) (k : String) : Meta :=
  match src.lookup k with
  | some v => md ++ [(k, .str (valStr v))]
  | none => md

/-- As `addStrOpt` but truncating to `n` characters
(`str(...)[:500]` for descriptions). -/
def addStrTrunc (md src : Meta) (k : String) (n : Nat) : Meta :=
  match src.lookup k with
  | some v => md ++ [(k, .str (strTake (valStr v) n))]
  | none => md

/-- `metadata[k] = float(src[k])` when present; failure of the conversion
aborts the chunk. -/
def addFloatOpt (md src : Meta) (k : String) : Option Meta :=
  match src.lookup k with
  | some v => (valFloat v).map (fun q => md ++ [(k, .num q)])
  | none => some md

/-- `metadata[k] = int(src[k])` when present; failure aborts the chunk. -/
def addIntOpt (md src : Meta) (k : String) : Option Meta :=
  match src.lookup k with
  | some v => (valInt v).map (fun i => md ++ [(k, .num (i : ℚ))])
  | none => some md

/-- The chunk-type-specific tail of `prepare_chunk_for_indexing`. -/
def prepareTypeSpecific (md src : Meta) : String → Option Meta
  | "individual_expense" => some (addStrTrunc md src "description" 500)
  | "category_summary" => addIntOpt md src "expense_count"
  | "monthly_summary" =>
    match addIntOpt md src "expense_count" with
    | some md1 => addFloatOpt md1 src "total_amount"
    | none => none
  | "vendor_summary" =>
    match addIntOpt md src "transaction_count" with
    | some md1 => addFloatOpt md1 src "total_amount"
    | none => none
  | _ => some md

/-- The common prefix of the flattened metadata: identifying fields, then
the shared optional string fields and the optional `amount`. -/
def prepareCommon (c : Chunk) : Option Meta :=
  match addFloatOpt (addStrOpt (addStrOpt (addStrOpt (addStrOpt
      [("chunk_id", .str c.chunk_id), ("chunk_type", .str c.chunk_type)]
      c.metadata "month_year") c.metadata "category") c.metadata "subcategory")
      c.metadata "vendor") c.metadata "amount" with
  | some md5 => some (addStrOpt (addStrOpt md5 c.metadata "currency") c.metadata "document")
  | none => none

/-- `prepare_chunk_for_indexing`: the flat metadata mapping passed to the
store's `add` (with id and content); `none` models a raised conversion
error, in which case `index_chunks` skips the chunk. -/
def prepareChunkForIndexing (c : Chunk) : Option (String × String × Meta) :=
  match prepareCommon c with
  | none => none
  | some md7 =>
    match prepareTypeSpecific md7 c.metadata c.chunk_type with
    | none => none
    | some md8 => some (c.chunk_id, c.content, md8)

/-- The numeric metadata fields named by the flatness invariant. -/
def numericKeys : List String :=
  ["amount", "total_amount", "expense_count", "transaction_count"]

/-- The flatness invariant claimed of every stored metadata mapping: all
values are scalars, and the values of the four numeric fields are
numeric. -/
def MdOK (md : Meta) : Prop :=
  ∀ kv ∈ md, kv.2.isScalar = true ∧ (kv.1 ∈ numericKeys → kv.2.isNum = true)

/-! ### Answer composer (`src/query/claude_client.py`) -/

/-- Rational amount read from result metadata
(`metadata.get('amount', 0)`; a missing or non-numeric value acts as the
falsy default). -/
def metaAmount (m : Meta) : ℚ :=
  match m.lookup "amount" with
  | some (.num q) => q
  | _ => 0

/-- One entry of `relevant_data.amounts`. -/
structure RelevantAmount where
  amount : ℚ
  description : String
  vendor : String
  category : String

/-- The `relevant_data` block of an analysis. -/
structure RelevantData where
  amounts : List RelevantAmount
  vendors : List String
  categories : List String
  months : List String

/-- The structured response of `analyze_expenses`.  The Python success
dict carries no suggestion keys; they are modelled as empty lists there. -/
structure Analysis where
  answer : String
  query : String
  total_results_found : Nat
  relevant_data : RelevantData
  raw_results : List ResultItem
  suggestions : List String := []
  reformulated_queries : List String := []

/-- Numbered suggestion lines (`f"\n{i}. {s}"`, numbering from 1). -/
def numberedLines : Nat → List String → String
  | _, [] => ""
  | i, s :: rest => "\n" ++ toString i ++ ". " ++ s ++ numberedLines (i + 1) rest

/-- Bulleted reformulation lines (`f"\n• {s}"`). -/
def bulletLines : List String → String
  | [] => ""
  | s :: rest => "\n• " ++ s ++ bulletLines rest

/-- The composed answer of the miss path of `analyze_expenses`: the error
text, then the numbered suggestions, then the bulleted reformulations. -/
def missAnswer (err : String) (sugs refs : List String) : String :=
  let base := "I couldn\x27t find any data matching your query. " ++ err
  let withSugs :=
    if sugs.isEmpty then base
    else base ++ "\n\nHere are some questions you could ask instead:"
      ++ numberedLines 1 sugs
  if refs.isEmpty then withSugs
  else withSugs ++ "\n\nTry these similar questions with available data:"
    ++ bulletLines refs

/-- First-occurrence deduplication of a list of strings (Python `set`
accumulation, iteration order abstracted as first occurrence). -/
def dedupStrings : List String → List String
  | [] => []
  | s :: rest => s :: (dedupStrings rest).filter (fun t => t ≠ s)

/-- The structured-data extraction of the success path of
`analyze_expenses`. -/
def extractRelevantData (sr : SearchResponse) : RelevantData :=
  { amounts := (sr.results.filter (fun r => metaAmount r.metadata ≠ 0)).map (fun r =>
      { amount := metaAmount r.metadata
        description := metaStrD r.metadata "description" ""
        vendor := metaStrD r.metadata "vendor" ""
        category := metaStrD r.metadata "category" "" })
    vendors := dedupStrings ((sr.results.filter (fun r =>
      metaStrD r.metadata "vendor" "" ≠ "")).map (fun r => metaStrD r.metadata "vendor" ""))
    categories := dedupStrings ((sr.results.filter (fun r =>
      metaStrD r.metadata "category" "" ≠ "")).map (fun r => metaStrD r.metadata "category" ""))
    months := dedupStrings ((sr.results.filter (fun r =>
      metaStrD r.metadata "month_year" "" ≠ "")).map (fun r => metaStrD r.metadata "month_year" "")) }

/-- The detail-request keywords of `analyze_expenses`. -/
def detailKeywords : List String :=
  ["breakdown", "details", "show me all", "list all", "show all"]

/-- `analyze_expenses`, parameterized over the external collaborators it
may call on the success path: `complete` abstracts `generate_response`
(the text-completion call) and `progressive` abstracts
`_format_progressive_response` (the local markdown formatter, exercised
by no claim).  The miss path must use neither. -/
def analyzeExpenses (complete : String → SearchResponse → String)
    (progressive : String → SearchResponse → String → String)
    (question : String) (sr : SearchResponse) : Analysis :=
  if sr.error.isSome && sr.total_results == 0 then
    { answer := missAnswer (sr.error.getD "") sr.suggestions sr.reformulated_queries
      query := question
      total_results_found := 0
      relevant_data := ⟨[], [], [], []⟩
      raw_results := []
      suggestions := sr.suggestions
      reformulated_queries := sr.reformulated_queries }
  else
    let responseText := complete question sr
    let wantsDetails := hasAnyKeyword (pyLower question) detailKeywords
    { answer := if wantsDetails then progressive question sr responseText else responseText
      query := question
      total_results_found := sr.total_results
      relevant_data := extractRelevantData sr
      raw_results := sr.results.take 5 }

/-- The structured summary of `create_expense_summary`. -/
structure ExpenseSummary where
  total_amount : ℚ
  total_items : Nat
  by_category : List (String × GroupAgg)
  by_month : List (String × GroupAgg)
  by_vendor : List (String × GroupAgg)

/-- One loop iteration of `create_expense_summary`: results whose
`amount` is falsy (absent, non-numeric or zero) are skipped entirely;
vendors that are empty or `'unknown'` are excluded from the vendor
grouping only. -/
def summaryStep (s : ExpenseSummary) (r : ResultItem) : ExpenseSummary :=
  let a := metaAmount r.metadata
  if a = 0 then s
  else
    let cat := metaStrD r.metadata "category" "other"
    let mon := metaStrD r.metadata "month_year" "unknown"
    let ven := metaStrD r.metadata "vendor" "unknown"
    { total_amount := s.total_amount + a
      total_items := s.total_items
      by_category := bumpGroup s.by_category cat a
      by_month := bumpGroup s.by_month mon a
      by_vendor :=
        if ven ≠ "" ∧ ven ≠ "unknown" then bumpGroup s.by_vendor ven a
        else s.by_vendor }

/-- `create_expense_summary`. -/
def createExpenseSummary (sr : SearchResponse) : ExpenseSummary :=
  let s := sr.results.foldl summaryStep ⟨0, 0, [], [], []⟩
  { s with total_items := sr.results.length }

/-- Sum of the per-group totals of a grouping dict. -/
def sumTotals (l : List (String × GroupAgg)) : ℚ := (l.map (·.2.total)).sum

/-! ### Conversation buffer (`src/web/app.py`, `process_query`) -/

/-- One conversation message. -/
structure Turn where
  role : String
  content : String

/-- Python `l[-n:]`. -/
def pyLastN (n : Nat) (l : List Turn) : List Turn := l.drop (l.length - n)

/-- The history update of a successfully processed query: append the user
question and the assistant answer, then keep only the last 20 messages
(`conversation_history = conversation_history[-20:]`). -/
def updateHistory (h : List Turn) (question answer : String) : List Turn :=
  pyLastN 20 (h ++ [⟨"user", question⟩, ⟨"assistant", answer⟩])

/-- One query-endpoint request, as it affects the buffer: a successfully
answered question, or the exception path (which leaves the buffer
untouched). -/
inductive ReqEvent where
  | ok (question answer : String)
  | failed

/-- Effect of one request on the conversation buffer. -/
def stepHistory (h : List Turn) : ReqEvent → List Turn
  | .ok q a => updateHistory h q a
  | .failed => h

/-- The buffer after a sequence of requests, from the module-level initial
empty list. -/
def historyAfter (events : List ReqEvent) : List Turn :=
  events.foldl stepHistory []

/-- Recognizer for the category-summary chunk of a given category and
month. -/
def isCatChunkFor (c my : String) (ch : Chunk) : Bool :=
  ch.chunk_type == "category_summary"
    && (match ch.metadata.lookup "category" with
        | some (.str s) => s == c
        | _ => false)
    && (match ch.metadata.lookup "month_year" with
        | some (.str s) => s == my
        | _ => false)

/-- Recognizer for the vendor-summary chunk of a given vendor. -/
def isVendChunkFor (v : String) (ch : Chunk) : Bool :=
  ch.chunk_type == "vendor_summary"
    && (match ch.metadata.lookup "vendor" with
        | some (.str s) => s == v
        | _ => false)

/-! ### Concrete instances used by witnesses and counterexamples -/

/-- A small expense set: two records sharing category and vendor, one
vendorless record in another category, all in one month. -/
def exampleExpenses : List Expense :=
  [{ id := "1", description := "Energy bill", amount := 10, vendor := "V"
     category := "c1", subcategory := "s", month_year := "2024-01"
     document := "d", currency := "BRL" },
   { id := "2", description := "Energy bill 2", amount := 20, vendor := "V"
     category := "c1", subcategory := "s", month_year := "2024-01"
     document := "d", currency := "BRL" },
   { id := "3", description := "Misc fee", amount := 30, vendor := ""
     category := "c2", subcategory := "s", month_year := "2024-01"
     document := "d", currency := "BRL" }]

/-- Results whose `amount` metadata is truthy (present, numeric and
non-zero). -/
def truthyAmount (r : ResultItem) : Bool := decide (metaAmount r.metadata ≠ 0)

/-- A routing-miss response used to witness the composer's miss path. -/
def srMissExample : SearchResponse :=
  { query := "payroll in 2030"
    total_results := 0
    results := []
    error := some "No data"
    suggestions := ["Ask about cleaning"]
    reformulated_queries := ["How much was spent on cleaning?"] }

/-- An expense whose description itself begins with the literal text
`Category:`, with category `'other'`. -/
def trickyExpense : Expense :=
  { id := "t1", description := "Category: trick", amount := 1, vendor := ""
    category := "other", subcategory := "miscellaneous", month_year := "2024-01"
    document := "doc.pdf", currency := "BRL" }

/-- A plain expense with a real category and subcategory. -/
def plainExpense : Expense :=
  { id := "p1", description := "Monthly electricity bill", amount := 1500
    vendor := "CEMIG", category := "utilities", subcategory := "power_supply"
    month_year := "2024-01", document := "doc.pdf", currency := "BRL" }

/-- A vendor-summary chunk with nested metadata, as the chunk builder
produces it, used to witness the indexer's flattening. -/
def exampleVendorChunk : Chunk :=
  { chunk_id := "vendor_CEMIG"
    content := "CEMIG: R$ 300.00 total across 2 transactions."
    chunk_type := "vendor_summary"
    metadata :=
      [("vendor", .str "CEMIG"), ("total_amount", .num 300),
       ("transaction_count", .num 2),
       ("monthly_data", .dict [("2024-01", .dict [("count", .num 2), ("total", .num 300)])]),
       ("categories", .arr [.str "utilities"]), ("currency", .str "BRL")] }

/-- A store whose inventory knows only January 2024 and whose raw query
always returns one hit. -/
def storeJanOnly : Store :=
  { filters :=
      { categories := ["cleaning"], subcategories := [], vendors := []
        months := ["2024-01"], chunk_types := ["individual_expense"] }
    rawQuery := fun _ _ _ =>
      { documents := ["Cleaning service - R$ 100.00"]
        metadatas := [[("chunk_type", Val.str "individual_expense"), ("amount", Val.num 100)]]
        distances := some [1 / 2] } }

/-- The twelve canonical months of the fixed reference year. -/
def months2024 : List String := monthMapping.map (·.2)

/-- A store whose inventory holds exactly the months 2024-01 … 2024-12
and whose raw query always returns one hit. -/
def store2024 : Store :=
  { filters :=
      { categories := ["cleaning"], subcategories := [], vendors := []
        months := months2024, chunk_types := ["individual_expense"] }
    rawQuery := fun _ _ _ =>
      { documents := ["Cleaning service - R$ 100.00"]
        metadatas := [[("chunk_type", Val.str "individual_expense"), ("amount", Val.num 100)]]
        distances := some [1 / 2] } }

/-- A store whose raw query never returns documents. -/
def storeNoHits : Store :=
  { filters :=
      { categories := ["cleaning", "utilities"], subcategories := [], vendors := []
        months := ["2024-01", "2024-02"], chunk_types := [] }
    rawQuery := fun _ _ _ => { documents := [], metadatas := [], distances := none } }

/-- A store reporting a distance greater than 1 (as an L2-metric vector
store may). -/
def storeBigDistance : Store :=
  { filters :=
      { categories := [], subcategories := [], vendors := [], months := [], chunk_types := [] }
    rawQuery := fun _ _ _ =>
      { documents := ["x"], metadatas := [[]], distances := some [3 / 2] } }

end Condo

/-! ## Theorems -/

namespace Condo

/-- `bumpGroup` adds exactly the bumped amount to the sum of group
totals. -/
theorem sumTotals_bumpGroup (l : List (String × GroupAgg)) (k : String) (a : ℚ) :
    sumTotals (bumpGroup l k a) = sumTotals l + a := by
  induction l with
  | nil => simp [bumpGroup, sumTotals]
  | cons p rest ih =>
    obtain ⟨k', g⟩ := p
    by_cases h : k' = k
    · simp [bumpGroup, h, sumTotals]
      ring
    · simp [bumpGroup, h, sumTotals] at ih ⊢
      rw [ih]
      ring

/-- Invariant of the `create_expense_summary` loop: the grand total and
both grouped-total sums each grow by exactly the sum of the truthy
amounts processed, and the item counter is untouched. -/
theorem summaryFold_invariant (rs : List ResultItem) (s : ExpenseSummary) :
    (rs.foldl summaryStep s).total_amount
        = s.total_amount + ((rs.filter truthyAmount).map (fun r => metaAmount r.metadata)).sum
      ∧ sumTotals (rs.foldl summaryStep s).by_category
        = sumTotals s.by_category + ((rs.filter truthyAmount).map (fun r => metaAmount r.metadata)).sum
      ∧ sumTotals (rs.foldl summaryStep s).by_month
        = sumTotals s.by_month + ((rs.filter truthyAmount).map (fun r => metaAmount r.metadata)).sum
      ∧ (rs.foldl summaryStep s).total_items = s.total_items := by
  induction rs generalizing s with
  | nil => simp
  | cons r rest ih =>
    by_cases h : metaAmount r.metadata = 0
    · have hstep : summaryStep s r = s := by simp [summaryStep, h]
      have hfilter : (r :: rest).filter truthyAmount = rest.filter truthyAmount := by
        simp [List.filter, truthyAmount, h]
      simp only [List.foldl_cons, hstep, hfilter]
      exact ih s
    · have hfilter : (r :: rest).filter truthyAmount = r :: rest.filter truthyAmount := by
        simp [List.filter, truthyAmount, h]
      have hstep₁ : (summaryStep s r).total_amount = s.total_amount + metaAmount r.metadata := by
        simp [summaryStep, h]
      have hstep₂ : sumTotals (summaryStep s r).by_category
          = sumTotals s.by_category + metaAmount r.metadata := by
        simp [summaryStep, h, sumTotals_bumpGroup]
      have hstep₃ : sumTotals (summaryStep s r).by_month
          = sumTotals s.by_month + metaAmount r.metadata := by
        simp [summaryStep, h, sumTotals_bumpGroup]
      have hstep₄ : (summaryStep s r).total_items = s.total_items := by
        simp [summaryStep, h]
      obtain ⟨ih₁, ih₂, ih₃, ih₄⟩ := ih (summaryStep s r)
      refine ⟨?_, ?_, ?_, ?_⟩
      · rw [List.foldl_cons, ih₁, hstep₁, hfilter]
        simp
        ring
      · rw [List.foldl_cons, ih₂, hstep₂, hfilter]
        simp
        ring
      · rw [List.foldl_cons, ih₃, hstep₃, hfilter]
        simp
        ring
      · rw [List.foldl_cons, ih₄, hstep₄]

/-- C7: for every `QueryResult`, the structured summary of
`create_expense_summary` counts every result in `total_items`, totals
exactly the results carrying a truthy numeric `amount`, and both the
per-category and per-month grouped totals sum back to `total_amount`. -/
theorem C7_expense_summary_conservation (sr : SearchResponse) :
    (createExpenseSummary sr).total_items = sr.results.length
      ∧ (createExpenseSummary sr).total_amount
        = ((sr.results.filter truthyAmount).map (fun r => metaAmount r.metadata)).sum
      ∧ sumTotals (createExpenseSummary sr).by_category
        = (createExpenseSummary sr).total_amount
      ∧ sumTotals (createExpenseSummary sr).by_month
        = (createExpenseSummary sr).total_amount := by
  obtain ⟨h₁, h₂, h₃, _⟩ := summaryFold_invariant sr.results ⟨0, 0, [], [], []⟩
  refine ⟨rfl, ?_, ?_, ?_⟩
  · simpa [createExpenseSummary, sumTotals] using h₁
  · show sumTotals (sr.results.foldl summaryStep ⟨0, 0, [], [], []⟩).by_category
      = (sr.results.foldl summaryStep ⟨0, 0, [], [], []⟩).total_amount
    rw [h₁, h₂]
    simp [sumTotals]
  · show sumTotals (sr.results.foldl summaryStep ⟨0, 0, [], [], []⟩).by_month
      = (sr.results.foldl summaryStep ⟨0, 0, [], [], []⟩).total_amount
    rw [h₁, h₃]
    simp [sumTotals]

/-- C6: on a routing miss (an `error` field with zero results) the
composer's output is independent of both external collaborators — the
text-completion service is never invoked — and consists of the composed
error answer, zero found results, empty relevant data and no raw
results. -/
theorem C6_miss_path_no_completion
    (complete complete' : String → SearchResponse → String)
    (progressive progressive' : String → SearchResponse → String → String)
    (question : String) (sr : SearchResponse) (e : String)
    (herr : sr.error = some e) (h0 : sr.total_results = 0) :
    analyzeExpenses complete progressive question sr
        = analyzeExpenses complete' progressive' question sr
      ∧ analyzeExpenses complete progressive question sr
        = { answer := missAnswer e sr.suggestions sr.reformulated_queries
            query := question
            total_results_found := 0
            relevant_data := ⟨[], [], [], []⟩
            raw_results := []
            suggestions := sr.suggestions
            reformulated_queries := sr.reformulated_queries } := by
  constructor <;> simp [analyzeExpenses, herr, h0]

/-- Witness for C6 at a concrete miss response and two observably
different collaborator pairs. -/
theorem C6_miss_path_no_completion_witness :
    analyzeExpenses (fun _ _ => "completion A") (fun _ _ _ => "markdown A")
        "payroll in 2030" srMissExample
      = analyzeExpenses (fun _ _ => "completion B") (fun _ _ _ => "markdown B")
        "payroll in 2030" srMissExample := by
  exact (C6_miss_path_no_completion (fun _ _ => "completion A")
    (fun _ _ => "completion B") (fun _ _ _ => "markdown A") (fun _ _ _ => "markdown B")
    "payroll in 2030" srMissExample "No data" rfl rfl).1

/-- C9: every successfully processed request appends exactly the new
user/assistant pair and truncates to the last 20 messages, and from the
initial empty buffer any sequence of requests (including failing ones,
which leave the buffer untouched) keeps the buffer at ≤ 20 messages,
i.e. at most the last 10 question/answer pairs. -/
theorem C9_conversation_buffer_bounded :
    (∀ (h : List Turn) (q a : String),
        updateHistory h q a <:+ h ++ [⟨"user", q⟩, ⟨"assistant", a⟩]
          ∧ (updateHistory h q a).length = min 20 (h.length + 2))
      ∧ ∀ events : List ReqEvent, (historyAfter events).length ≤ 20 := by
  have hstep : ∀ (h : List Turn) (ev : ReqEvent),
      h.length ≤ 20 → (stepHistory h ev).length ≤ 20 := by
    intro h ev hh
    cases ev with
    | ok q a =>
      simp [stepHistory, updateHistory, pyLastN]
      omega
    | failed => exact hh
  constructor
  · intro h q a
    constructor
    · exact List.drop_suffix _ _
    · simp [updateHistory, pyLastN]
      omega
  · intro events
    have main : ∀ (h : List Turn), h.length ≤ 20 →
        (events.foldl stepHistory h).length ≤ 20 := by
      induction events with
      | nil => intro h hh; simpa using hh
      | cons ev rest ih =>
        intro h hh
        exact ih (stepHistory h ev) (hstep h ev hh)
    exact main [] (by simp)

/-- `charsContain` decides contiguous-sublist containment. -/
theorem charsContain_iff (p : List Char) (l : List Char) :
    charsContain p l = true ↔ p <:+: l := by
  induction l with
  | nil =>
    simp [charsContain, List.isEmpty_iff]
  | cons c rest ih =>
    simp [charsContain, List.infix_cons_iff, List.isPrefixOf_iff_prefix, ih]

/-- `strContains` decides substring containment on the character data. -/
theorem strContains_iff (s pat : String) :
    strContains s pat = true ↔ pat.data <:+: s.data :=
  charsContain_iff pat.data s.data

/-- C1 (amended): whenever the router detects a month — the first month
name, in January→December order, occurring in the lowercased question —
whose canonical `YYYY-MM` key is absent from the inventory's months, the
response is exactly the miss-month result, independent of the store's
search (no fall-through), with zero results, an error listing the
available months, and, when the known-months list is non-empty, a
suggestion referencing a known month. -/
theorem C1_month_miss (f : Filters)
    (rq : String → Nat → Option (List (String × String)) → RawResult)
    (query m : String)
    (hdet : detectMonth (pyLower query) = some m)
    (habs : f.months.contains m = false) :
    searchNaturalLanguage ⟨f, rq⟩ query = monthMissResponse query m f.months
      ∧ (monthMissResponse query m f.months).total_results = 0
      ∧ (monthMissResponse query m f.months).results = []
      ∧ (f.months ≠ [] →
          ∃ s ∈ (monthMissResponse query m f.months).suggestions,
            ∃ mo ∈ f.months, strContains s (formatMonthName mo) = true) := by
  refine ⟨?_, rfl, rfl, ?_⟩
  · simp only [searchNaturalLanguage, hdet, habs, Bool.false_eq_true, if_false]
  · intro hne
    match hm : f.months with
    | [] => exact absurd hm hne
    | mo :: rest =>
      refine ⟨"What were the " ++
          (if strContains (pyLower query) "salary" || strContains (pyLower query) "personnel"
            then "expenses by category"
            else if strContains (pyLower query) "total" || strContains (pyLower query) "summary"
              then "monthly summary" else "expenses")
          ++ " for " ++ formatMonthName mo ++ "?", ?_, mo, by simp, ?_⟩
      · simp [monthMissResponse, generateMonthSuggestions]
      · rw [strContains_iff]
        refine ⟨("What were the " ++
          (if strContains (pyLower query) "salary" || strContains (pyLower query) "personnel"
            then "expenses by category"
            else if strContains (pyLower query) "total" || strContains (pyLower query) "summary"
              then "monthly summary" else "expenses") ++ " for ").data, "?".data, ?_⟩
        simp [String.data_append, List.append_assoc]

/-- Witness for C1 at a concrete inventory that knows only 2024-01 and a
question asking about March. -/
theorem C1_month_miss_witness :
    searchNaturalLanguage storeJanOnly "total spent in March"
        = monthMissResponse "total spent in March" "2024-03" ["2024-01"]
      ∧ (monthMissResponse "total spent in March" "2024-03" ["2024-01"]).total_results = 0 := by
  have h := C1_month_miss storeJanOnly.filters storeJanOnly.rawQuery
    "total spent in March" "2024-03" (by decide) (by decide)
  exact ⟨h.1, h.2.1⟩

/-- C1 counterexample: a question that also names an earlier-listed month
whose key is present.  "Compare March and January expenses" names March,
whose key 2024-03 is absent from the inventory, yet the router detects
January first and performs a month-filtered search: the response carries
no error and a non-zero `total_results`, contradicting the claim's
universal miss. -/
theorem C1_counterexample :
    (∃ p ∈ monthMapping,
        strContains (pyLower "Compare March and January expenses") p.1 = true
          ∧ storeJanOnly.filters.months.contains p.2 = false)
      ∧ (searchNaturalLanguage storeJanOnly "Compare March and January expenses").error = none
      ∧ (searchNaturalLanguage storeJanOnly "Compare March and January expenses").total_results
          = 1 := by
  refine ⟨⟨("march", "2024-03"), by decide, by decide, by decide⟩, rfl, rfl⟩

/-- C2 (amended): with the inventory months exactly 2024-01 … 2024-12, the
question "What were the expenses in March 2025?" does not miss: the
router's fixed reference year maps "march" to 2024-03, which is present,
so it delegates to the month-filtered search for 2024-03. -/
theorem C2_march_2025 (st : Store) (hm : st.filters.months = months2024) :
    searchNaturalLanguage st "What were the expenses in March 2025?"
      = searchByMonth st "2024-03" 15 := by
  have hdet : detectMonth (pyLower "What were the expenses in March 2025?")
      = some "2024-03" := by decide
  have hsal : hasAnyKeyword (pyLower "What were the expenses in March 2025?")
      salaryKeywords = false := by decide
  have hc : months2024.contains "2024-03" = true := by decide
  simp only [searchNaturalLanguage, hdet, hm, hc, if_true, afterMonthCheck, hsal,
    Bool.false_and, Bool.false_eq_true, if_false]

/-- Witness for C2 (amended) at the concrete 2024-months store. -/
theorem C2_march_2025_witness :
    searchNaturalLanguage store2024 "What were the expenses in March 2025?"
      = searchByMonth store2024 "2024-03" 15 :=
  C2_march_2025 store2024 rfl

/-- C2 counterexample: at the 2024-months store the claimed miss does not
happen — the response carries no error and one result, not
`total_results = 0` with an error and suggestions. -/
theorem C2_counterexample :
    store2024.filters.months = months2024
      ∧ (searchNaturalLanguage store2024 "What were the expenses in March 2025?").error = none
      ∧ (searchNaturalLanguage store2024 "What were the expenses in March 2025?").total_results
          = 1 := by
  refine ⟨rfl, rfl, rfl⟩

/-- C3: whenever no month, personnel, vendor, category or total/summary
intent is detected and the unfiltered search comes back empty or with all
top-3 scores below 0.3, the router returns the structured no-relevant-match
result: zero results, an error enumerating the known categories and
months, suggestions, and at most three reformulations — never the
low-confidence results themselves. -/
theorem C3_generic_fallback (st : Store) (query : String)
    (h1 : detectMonth (pyLower query) = none)
    (h2 : hasAnyKeyword (pyLower query) salaryKeywords = false)
    (h3 : hasAnyKeyword (pyLower query) vendorKeywords = false)
    (h4 : hasAnyKeyword (pyLower query) categoryKeywords = false)
    (h5 : strContains (pyLower query) "total" = false)
    (h6 : strContains (pyLower query) "summary" = false)
    (h7 : (searchExpenses st query 12 []).results = []
        ∨ ((searchExpenses st query 12 []).results.take 3).all
            (fun item => decide (item.similarity_score < 3 / 10)) = true) :
    searchNaturalLanguage st query = genericMissResponse query st.filters
      ∧ (genericMissResponse query st.filters).total_results = 0
      ∧ (genericMissResponse query st.filters).results = []
      ∧ (genericMissResponse query st.filters).error
          = some ("No relevant results found. Try searching for: "
            ++ String.intercalate ", " st.filters.categories ++ " or months: "
            ++ String.intercalate ", " st.filters.months)
      ∧ (genericMissResponse query st.filters).reformulated_queries.length ≤ 3 := by
  have hlow : lowConfidence (searchExpenses st query 12 []) = true := by
    rcases h7 with h | h
    · simp [lowConfidence, h]
    · simp [lowConfidence, h]
  refine ⟨?_, rfl, rfl, rfl, ?_⟩
  · simp only [searchNaturalLanguage, h1, afterMonthCheck, h2, Bool.false_and,
      Bool.false_eq_true, if_false, h3, h4, h5, h6, Bool.or_self, genericBranch, hlow,
      if_true]
  · simp only [genericMissResponse, suggestBetterQueries]
    exact List.length_take_le 3 _

/-- Witness for C3 at a store that returns no documents and a keyword-free
question. -/
theorem C3_generic_fallback_witness :
    searchNaturalLanguage storeNoHits "zzz" = genericMissResponse "zzz" storeNoHits.filters
      ∧ (genericMissResponse "zzz" storeNoHits.filters).total_results = 0 := by
  have h := C3_generic_fallback storeNoHits "zzz" (by decide) (by decide) (by decide)
    (by decide) (by decide) (by decide) (Or.inl rfl)
  exact ⟨h.1, h.2.1⟩

/-- The scores of the formatted results, read off the zipped triples. -/
theorem formatItems_map_score (i : Nat) (ts : List (String × Meta × ℚ)) :
    (formatItems i ts).map (·.similarity_score)
      = ts.map (fun t => if t.2.2 = 0 then 1 else 1 - t.2.2) := by
  induction ts generalizing i with
  | nil => rfl
  | cons t rest ih =>
    obtain ⟨doc, meta, d⟩ := t
    simp [formatItems, ih]

/-- Every formatted result's score is the score of one of the zipped
triples. -/
theorem formatItems_mem_score (i : Nat) (ts : List (String × Meta × ℚ))
    (r : ResultItem) (hr : r ∈ formatItems i ts) :
    ∃ t ∈ ts, r.similarity_score = if t.2.2 = 0 then 1 else 1 - t.2.2 := by
  induction ts generalizing i with
  | nil => simp [formatItems] at hr
  | cons t rest ih =>
    obtain ⟨doc, meta, d⟩ := t
    simp only [formatItems, List.mem_cons] at hr
    rcases hr with h | h
    · exact ⟨(doc, meta, d), by simp, by rw [h]⟩
    · obtain ⟨t', ht', hs⟩ := ih (i + 1) h
      exact ⟨t', by simp [ht'], hs⟩

/-- C8 (amended): each result's similarity score is `1 − distance` for a
non-zero reported distance and `1.0` for a zero or absent distance; and
the scores all lie in `[0, 1]` provided the store's reported distances lie
in `[0, 1]` (which the wrapper does not itself enforce). -/
theorem C8_similarity_scores (st : Store) (q : String) (n : Nat)
    (fs : List (String × String))
    (hd : ∀ d ∈ effDistances (st.rawQuery q n (if fs.isEmpty then none else some fs)),
      0 ≤ d ∧ d ≤ 1) :
    ((searchExpenses st q n fs).results.map (·.similarity_score))
        = (rawTriples (st.rawQuery q n (if fs.isEmpty then none else some fs))).map
            (fun t => if t.2.2 = 0 then 1 else 1 - t.2.2)
      ∧ ∀ r ∈ (searchExpenses st q n fs).results,
          0 ≤ r.similarity_score ∧ r.similarity_score ≤ 1 := by
  constructor
  · exact formatItems_map_score 0 _
  · intro r hr
    obtain ⟨t, ht, hs⟩ := formatItems_mem_score 0 _ r hr
    have hdist : t.2.2 ∈ effDistances (st.rawQuery q n (if fs.isEmpty then none else some fs)) := by
      have h1 := List.of_mem_zip ht
      have h2 := List.of_mem_zip h1.2
      exact h2.2
    obtain ⟨hd0, hd1⟩ := hd t.2.2 hdist
    by_cases hz : t.2.2 = 0
    · rw [hs, if_pos hz]
      norm_num
    · rw [hs, if_neg hz]
      constructor <;> linarith

/-- Witness for C8 at a store reporting the in-range distance 1/2. -/
theorem C8_similarity_scores_witness :
    ((searchExpenses storeJanOnly "cleaning" 5 []).results.map (·.similarity_score))
        = [1 / 2]
      ∧ ∀ r ∈ (searchExpenses storeJanOnly "cleaning" 5 []).results,
          0 ≤ r.similarity_score ∧ r.similarity_score ≤ 1 := by
  have hd : ∀ d ∈ effDistances (storeJanOnly.rawQuery "cleaning" 5
      (if ([] : List (String × String)).isEmpty then none else some [])), 0 ≤ d ∧ d ≤ 1 := by
    intro d hmem
    simp [effDistances, storeJanOnly] at hmem
    subst hmem
    norm_num
  have h := C8_similarity_scores storeJanOnly "cleaning" 5 [] hd
  refine ⟨?_, h.2⟩
  rw [h.1]
  norm_num [rawTriples, effDistances, storeJanOnly]

/-- C8 counterexample: a store reporting distance 3/2 (L2 distances are
not bounded by 1) yields the similarity score −1/2, outside `[0, 1]`. -/
theorem C8_counterexample :
    ((searchExpenses storeBigDistance "anything" 5 []).results.map (·.similarity_score))
        = [-(1 / 2)]
      ∧ ((-(1 / 2) : ℚ) < 0) := by
  constructor
  · rw [show (searchExpenses storeBigDistance "anything" 5 []).results
        = formatItems 0 (rawTriples (storeBigDistance.rawQuery "anything" 5 none)) from rfl,
      formatItems_map_score]
    norm_num [rawTriples, effDistances, storeBigDistance]
  · norm_num

/-- Adding a stringified field under a non-numeric key preserves the
flatness invariant. -/
theorem MdOK_addStrOpt (md src : Meta) (k : String) (h : MdOK md)
    (hk : k ∉ numericKeys) : MdOK (addStrOpt md src k) := by
  unfold addStrOpt
  cases src.lookup k with
  | none => exact h
  | some v =>
    intro kv hkv
    rcases List.mem_append.1 hkv with hm | hm
    · exact h kv hm
    · simp at hm
      subst hm
      exact ⟨rfl, fun hmem => absurd hmem hk⟩

/-- As `MdOK_addStrOpt` for the truncating variant. -/
theorem MdOK_addStrTrunc (md src : Meta) (k : String) (n : Nat) (h : MdOK md)
    (hk : k ∉ numericKeys) : MdOK (addStrTrunc md src k n) := by
  unfold addStrTrunc
  cases src.lookup k with
  | none => exact h
  | some v =>
    intro kv hkv
    rcases List.mem_append.1 hkv with hm | hm
    · exact h kv hm
    · simp at hm
      subst hm
      exact ⟨rfl, fun hmem => absurd hmem hk⟩

/-- A successful float conversion stores a numeric scalar, preserving the
invariant. -/
theorem MdOK_addFloatOpt (md md' src : Meta) (k : String) (h : MdOK md)
    (heq : addFloatOpt md src k = some md') : MdOK md' := by
  unfold addFloatOpt at heq
  cases hl : src.lookup k with
  | none =>
    rw [hl] at heq
    simp at heq
    subst heq
    exact h
  | some v =>
    rw [hl] at heq
    cases hv : valFloat v with
    | none => simp [hv] at heq
    | some q =>
      simp [hv] at heq
      subst heq
      intro kv hkv
      rcases List.mem_append.1 hkv with hm | hm
      · exact h kv hm
      · simp at hm
        subst hm
        exact ⟨rfl, fun _ => rfl⟩

/-- A successful int conversion stores a numeric scalar, preserving the
invariant. -/
theorem MdOK_addIntOpt (md md' src : Meta) (k : String) (h : MdOK md)
    (heq : addIntOpt md src k = some md') : MdOK md' := by
  unfold addIntOpt at heq
  cases hl : src.lookup k with
  | none =>
    rw [hl] at heq
    simp at heq
    subst heq
    exact h
  | some v =>
    rw [hl] at heq
    cases hv : valInt v with
    | none => simp [hv] at heq
    | some i =>
      simp [hv] at heq
      subst heq
      intro kv hkv
      rcases List.mem_append.1 hkv with hm | hm
      · exact h kv hm
      · simp at hm
        subst hm
        exact ⟨rfl, fun _ => rfl⟩

/-- The type-specific tail preserves the flatness invariant. -/
theorem MdOK_prepareTypeSpecific (md md' src : Meta) (ct : String) (h : MdOK md)
    (heq : prepareTypeSpecific md src ct = some md') : MdOK md' := by
  unfold prepareTypeSpecific at heq
  split at heq
  · cases heq
    exact MdOK_addStrTrunc md src "description" 500 h (by decide)
  · exact MdOK_addIntOpt md md' src "expense_count" h heq
  · split at heq
    · rename_i md1 h1
      exact MdOK_addFloatOpt md1 md' src "total_amount"
        (MdOK_addIntOpt md md1 src "expense_count" h h1) heq
    · cases heq
  · split at heq
    · rename_i md1 h1
      exact MdOK_addFloatOpt md1 md' src "total_amount"
        (MdOK_addIntOpt md md1 src "transaction_count" h h1) heq
    · cases heq
  · cases heq
    exact h

/-- The common flattening prefix establishes the invariant from the
two-entry identifying base. -/
theorem MdOK_prepareCommon (c : Chunk) (md : Meta)
    (heq : prepareCommon c = some md) : MdOK md := by
  unfold prepareCommon at heq
  have h0 : MdOK [("chunk_id", .str c.chunk_id), ("chunk_type", .str c.chunk_type)] := by
    intro kv hkv
    rcases List.mem_cons.1 hkv with hm | hm
    · subst hm
      refine ⟨rfl, fun hmem => ?_⟩
      simp [numericKeys] at hmem
    · simp at hm
      subst hm
      refine ⟨rfl, fun hmem => ?_⟩
      simp [numericKeys] at hmem
  have h4 : MdOK (addStrOpt (addStrOpt (addStrOpt (addStrOpt
      [("chunk_id", .str c.chunk_id), ("chunk_type", .str c.chunk_type)]
      c.metadata "month_year") c.metadata "category") c.metadata "subcategory")
      c.metadata "vendor") :=
    MdOK_addStrOpt _ _ _ (MdOK_addStrOpt _ _ _ (MdOK_addStrOpt _ _ _
      (MdOK_addStrOpt _ _ _ h0 (by decide)) (by decide)) (by decide)) (by decide)
  split at heq
  · rename_i md5 h5
    cases heq
    exact MdOK_addStrOpt _ _ _ (MdOK_addStrOpt _ _ _
      (MdOK_addFloatOpt _ md5 _ "amount" h4 h5) (by decide)) (by decide)
  · cases heq

/-- C5: every metadata mapping the indexer hands to the store's `add`
holds only flat scalar values, and its `amount`, `total_amount`,
`expense_count` and `transaction_count` fields, when present, are numeric
values — even though the chunk builder's own metadata may nest lists and
mappings. -/
theorem C5_indexed_metadata_flat (c : Chunk) (out : String × String × Meta)
    (h : prepareChunkForIndexing c = some out) :
    ∀ kv ∈ out.2.2, kv.2.isScalar = true ∧ (kv.1 ∈ numericKeys → kv.2.isNum = true) := by
  unfold prepareChunkForIndexing at h
  split at h
  · cases h
  · rename_i md7 h7
    split at h
    · cases h
    · rename_i md8 h8
      cases h
      exact MdOK_prepareTypeSpecific md7 md8 c.metadata c.chunk_type
        (MdOK_prepareCommon c md7 h7) h8

/-- Witness for C5: the flattening succeeds on a vendor chunk whose own
metadata nests a dict and a list, and the stored mapping satisfies the
invariant. -/
theorem C5_indexed_metadata_flat_witness :
    (((prepareChunkForIndexing exampleVendorChunk).getD ("", "", [])).2.2.all
        (fun kv => kv.2.isScalar && (!(decide (kv.1 ∈ numericKeys)) || kv.2.isNum)))
      = true := by
  have h := C5_indexed_metadata_flat exampleVendorChunk
    ((prepareChunkForIndexing exampleVendorChunk).getD ("", "", [])) rfl
  rw [List.all_eq_true]
  intro kv hkv
  obtain ⟨h1, h2⟩ := h kv hkv
  rw [h1]
  by_cases hm : kv.1 ∈ numericKeys
  · simp [h2 hm]
  · simp [hm]

/-- Two strings whose character data start differently are different. -/
theorem ne_of_data_head (s t : String) (c₁ c₂ : Char) (h₁ : s.data.head? = some c₁)
    (h₂ : t.data.head? = some c₂) (hne : c₁ ≠ c₂) : s ≠ t := by
  intro h
  subst h
  rw [h₁] at h₂
  injection h₂ with h'
  exact hne h'

/-- A string containing `$` differs from one that does not. -/
theorem ne_of_dollar (s t : String) (hs : ('$' : Char) ∈ s.data)
    (ht : ('$' : Char) ∉ t.data) : s ≠ t := fun h => ht (h ▸ hs)

/-- The head of the data of a left-extended string. -/
theorem head?_data_append (a b : String) (c : Char) (h : a.data.head? = some c) :
    (a ++ b).data.head? = some c := by
  rw [String.data_append]
  cases hd : a.data with
  | nil => rw [hd] at h; cases h
  | cons x xs =>
    rw [hd] at h
    injection h with h'
    subst h'
    rfl

/-- The main clause of an expense chunk always contains the `$` of the
currency-prefixed amount. -/
theorem dollar_in_mainPart (e : Expense) : ('$' : Char) ∈ (expenseMainPart e).data := by
  have hR : ('$' : Char) ∈ "R$ ".data := by decide
  unfold expenseMainPart amountFormatted
  by_cases hv : e.vendor ≠ ""
  · rw [if_pos hv]
    simp only [String.data_append, List.mem_append]
    tauto
  · rw [if_neg hv]
    simp only [String.data_append, List.mem_append]
    tauto

/-- The accumulator is a prefix of the joined string
(`String.intercalate.go`). -/
theorem intercalate_go_data_isPre (sep : String) (parts : List String) (acc : String) :
    acc.data <+: (String.intercalate.go acc sep parts).data := by
  induction parts generalizing acc with
  | nil => exact List.prefix_rfl
  | cons a as ih =>
    rw [show String.intercalate.go acc sep (a :: as)
        = String.intercalate.go (acc ++ sep ++ a) sep as from rfl]
    refine List.IsPrefix.trans ?_ (ih (acc ++ sep ++ a))
    rw [String.data_append, String.data_append, List.append_assoc]
    exact List.prefix_append _ _

/-- Every later element occurs inside the joined string
(`String.intercalate.go`). -/
theorem intercalate_go_data_isInf (sep : String) (parts : List String) (acc s : String)
    (hs : s ∈ parts) : s.data <:+: (String.intercalate.go acc sep parts).data := by
  induction parts generalizing acc with
  | nil => simp at hs
  | cons a as ih =>
    rw [show String.intercalate.go acc sep (a :: as)
        = String.intercalate.go (acc ++ sep ++ a) sep as from rfl]
    rcases List.mem_cons.1 hs with h | h
    · subst h
      have hsuf : s.data <:+ (acc ++ sep ++ s).data := by
        rw [String.data_append]
        exact List.suffix_append _ _
      exact hsuf.isInfix.trans (intercalate_go_data_isPre sep as (acc ++ sep ++ s)).isInfix
    · exact ih (acc ++ sep ++ a) h

/-- Every clause of the `content_parts` list occurs as a substring of the
assembled chunk content. -/
theorem clause_in_content (e : Expense) (p : String) (hp : p ∈ contentParts e) :
    strContains (createExpenseChunk e).content p = true := by
  rw [strContains_iff]
  show p.data <:+: (String.intercalate ". " (contentParts e) ++ ".").data
  have h : p.data <:+: (String.intercalate ". " (contentParts e)).data := by
    cases hcp : contentParts e with
    | nil => rw [hcp] at hp; simp at hp
    | cons a as =>
      rw [hcp] at hp
      rw [show String.intercalate ". " (a :: as) = String.intercalate.go a ". " as from rfl]
      rcases List.mem_cons.1 hp with h | h
      · subst h
        exact (intercalate_go_data_isPre ". " as p).isInfix
      · exact intercalate_go_data_isInf ". " as a p h
  rw [String.data_append]
  exact h.trans (List.prefix_append _ _).isInfix

/-- The period clause, when present, starts with `P`. -/
theorem periodOf_head (monthYear p : String) (h : periodOf monthYear = some p) :
    p.data.head? = some 'P' := by
  unfold periodOf at h
  split at h
  · injection h with h'
    subst h'
    exact head?_data_append _ _ _ (head?_data_append _ _ _
      (head?_data_append _ _ _ (by decide)))
  · cases h

/-- C10 (amended): the clause list underlying the chunk content carries
the `Category:` clause iff the category is not the literal `'other'`, and
the `Subcategory:` clause iff additionally the subcategory is not the
literal `'miscellaneous'` (for the subcategory clause, provided its
rendered text contains no `$`, which rules out collisions with the
amount clause); whenever a clause is emitted its text occurs in the
content. -/
theorem C10_clause_suppression (e : Expense)
    (hsub : ('$' : Char) ∉ ("Subcategory: "
      ++ pyTitle (replaceChar '_' ' ' e.subcategory)).data) :
    (("Category: " ++ pyTitle e.category) ∈ contentParts e ↔ e.category ≠ "other")
      ∧ (("Subcategory: " ++ pyTitle (replaceChar '_' ' ' e.subcategory)) ∈ contentParts e
          ↔ (e.category ≠ "other" ∧ e.subcategory ≠ "miscellaneous"))
      ∧ (e.category ≠ "other" →
          strContains (createExpenseChunk e).content
            ("Category: " ++ pyTitle e.category) = true)
      ∧ (e.category ≠ "other" → e.subcategory ≠ "miscellaneous" →
          strContains (createExpenseChunk e).content
            ("Subcategory: " ++ pyTitle (replaceChar '_' ' ' e.subcategory)) = true) := by
  have hcat_iff : ("Category: " ++ pyTitle e.category) ∈ contentParts e
      ↔ e.category ≠ "other" := by
    constructor
    · intro hmem hcat
      have hparts : contentParts e
          = expenseMainPart e :: (periodOf e.month_year).toList := by
        simp [contentParts, hcat]
      rw [hcat, hparts] at hmem
      rcases List.mem_cons.1 hmem with h | h
      · exact ne_of_dollar (expenseMainPart e) ("Category: " ++ pyTitle "other")
          (dollar_in_mainPart e) (by decide) h.symm
      · cases hper : periodOf e.month_year with
        | none => rw [hper] at h; simp at h
        | some p =>
          rw [hper] at h
          simp only [Option.toList_some, List.mem_singleton] at h
          exact ne_of_data_head _ _ 'C' 'P'
            (head?_data_append _ _ _ (by decide)) (periodOf_head _ _ hper)
            (by decide) h
    · intro hne
      simp [contentParts, hne]
  have hsub_iff : ("Subcategory: " ++ pyTitle (replaceChar '_' ' ' e.subcategory))
      ∈ contentParts e ↔ (e.category ≠ "other" ∧ e.subcategory ≠ "miscellaneous") := by
    constructor
    · intro hmem
      by_cases hcat : e.category = "other"
      · exfalso
        have hparts : contentParts e
            = expenseMainPart e :: (periodOf e.month_year).toList := by
          simp [contentParts, hcat]
        rw [hparts] at hmem
        rcases List.mem_cons.1 hmem with h | h
        · exact ne_of_dollar (expenseMainPart e) _ (dollar_in_mainPart e) hsub h.symm
        · cases hper : periodOf e.month_year with
          | none => rw [hper] at h; simp at h
          | some p =>
            rw [hper] at h
            simp only [Option.toList_some, List.mem_singleton] at h
            exact ne_of_data_head _ _ 'S' 'P'
              (head?_data_append _ _ _ (by decide)) (periodOf_head _ _ hper)
              (by decide) h
      · refine ⟨hcat, fun hmisc => ?_⟩
        have hparts : contentParts e
            = expenseMainPart e :: ("Category: " ++ pyTitle e.category)
              :: (periodOf e.month_year).toList := by
          simp [contentParts, hcat, hmisc]
        rw [hmisc, hparts] at hmem
        rcases List.mem_cons.1 hmem with h | h
        · exact ne_of_dollar (expenseMainPart e)
            ("Subcategory: " ++ pyTitle (replaceChar '_' ' ' "miscellaneous"))
            (dollar_in_mainPart e) (by decide) h.symm
        · rcases List.mem_cons.1 h with h | h
          · exact ne_of_data_head _ _ 'C' 'S'
              (head?_data_append _ _ _ (by decide))
              (head?_data_append _ _ _ (by decide)) (by decide) h.symm
          · cases hper : periodOf e.month_year with
            | none => rw [hper] at h; simp at h
            | some p =>
              rw [hper] at h
              simp only [Option.toList_some, List.mem_singleton] at h
              exact ne_of_data_head _ _ 'S' 'P'
                (head?_data_append _ _ _ (by decide)) (periodOf_head _ _ hper)
                (by decide) h
    · intro ⟨hc, hs⟩
      simp [contentParts, hc, hs]
  refine ⟨hcat_iff, hsub_iff, ?_, ?_⟩
  · intro hne
    exact clause_in_content e _ (hcat_iff.2 hne)
  · intro hc hs
    exact clause_in_content e _ (hsub_iff.2 ⟨hc, hs⟩)

/-- Witness for C10 at a plain expense with a real category and
subcategory: both clauses appear, both in the clause list and in the
content. -/
theorem C10_clause_suppression_witness :
    (("Category: " ++ pyTitle plainExpense.category) ∈ contentParts plainExpense
        ↔ plainExpense.category ≠ "other")
      ∧ strContains (createExpenseChunk plainExpense).content
          ("Category: " ++ pyTitle plainExpense.category) = true := by
  have h := C10_clause_suppression plainExpense (by decide)
  exact ⟨h.1, h.2.2.1 (by decide)⟩

/-- C10 counterexample (to the substring reading of the claim): a record
whose description itself starts with `Category:` makes the content contain
`Category:` although the category is the literal `'other'`. -/
theorem C10_counterexample :
    strContains (createExpenseChunk trickyExpense).content "Category:" = true
      ∧ trickyExpense.category = "other" := by
  exact ⟨by decide, rfl⟩

/-- The keys collected by `firstKeys` are distinct. -/
theorem firstKeys_nodup (f : Expense → String) (es : List Expense) :
    (firstKeys f es).Nodup := by
  induction es with
  | nil => exact List.nodup_nil
  | cons e es ih =>
    refine List.Nodup.cons ?_ (ih.filter _)
    intro hmem
    rw [List.mem_filter] at hmem
    simp at hmem

/-- A key is collected by `firstKeys` exactly when some record carries
it. -/
theorem mem_firstKeys (f : Expense → String) (k : String) (es : List Expense) :
    k ∈ firstKeys f es ↔ ∃ e ∈ es, f e = k := by
  induction es with
  | nil => simp [firstKeys]
  | cons e es ih =>
    simp only [firstKeys, List.mem_cons, List.mem_filter, ih]
    constructor
    · rintro (h | ⟨⟨e', he', hfe⟩, _⟩)
      · exact ⟨e, Or.inl rfl, h.symm⟩
      · exact ⟨e', Or.inr he', hfe⟩
    · rintro ⟨e', he' | he', hfe⟩
      · subst he'
        exact Or.inl hfe.symm
      · by_cases hk : k = f e
        · exact Or.inl hk
        · exact Or.inr ⟨⟨e', he', hfe⟩, by simpa using hk⟩

/-- `countP` distributes over `flatMap` as a sum. -/
theorem countP_flatMap_sum (p : Chunk → Bool) (f : String → List Chunk)
    (l : List String) :
    (l.flatMap f).countP p = (l.map (fun a => (f a).countP p)).sum := by
  induction l with
  | nil => rfl
  | cons a l ih => simp [List.flatMap_cons, List.countP_append, ih]

/-- Sum of a map that vanishes away from a single key of a duplicate-free
list. -/
theorem sum_map_single (l : List String) (hl : l.Nodup) (g : String → Nat)
    (k₀ : String) (hother : ∀ k ∈ l, k ≠ k₀ → g k = 0) :
    (l.map g).sum = if k₀ ∈ l then g k₀ else 0 := by
  induction l with
  | nil => simp
  | cons a l ih =>
    rcases List.nodup_cons.1 hl with ⟨ha, hl'⟩
    rw [List.map_cons, List.sum_cons]
    by_cases hak : a = k₀
    · subst hak
      have hz : (l.map g).sum = 0 := by
        apply List.sum_eq_zero
        intro x hx
        rw [List.mem_map] at hx
        obtain ⟨k, hk, rfl⟩ := hx
        exact hother k (List.mem_cons_of_mem a hk) (fun h => ha (h ▸ hk))
      simp [hz, List.mem_cons]
    · have hga : g a = 0 := hother a (List.mem_cons_self a l) hak
      rw [ih hl' (fun k hk hne => hother k (List.mem_cons_of_mem a hk) hne), hga]
      by_cases hk : k₀ ∈ l
      · simp [hk, List.mem_cons]
      · have hka : ¬(k₀ = a) := fun h => hak h.symm
        simp [hk, List.mem_cons, hka]

/-- `countP` over a `filterMap` indexed by duplicate-free keys where the
predicate holds only at key `k₀`. -/
theorem countP_filterMap_single (p : Chunk → Bool) (f : String → Option Chunk)
    (l : List String) (hl : l.Nodup) (k₀ : String)
    (hother : ∀ k ∈ l, k ≠ k₀ → ∀ ch, f k = some ch → p ch = false)
    (hk₀ : ∀ ch, f k₀ = some ch → p ch = true) :
    (l.filterMap f).countP p = if k₀ ∈ l ∧ (f k₀).isSome then 1 else 0 := by
  induction l with
  | nil => simp
  | cons a l ih =>
    rcases List.nodup_cons.1 hl with ⟨ha, hl'⟩
    rw [List.filterMap_cons]
    by_cases hak : a = k₀
    · subst hak
      have hz : (l.filterMap f).countP p = 0 := by
        rw [List.countP_eq_zero]
        intro ch hch
        rw [List.mem_filterMap] at hch
        obtain ⟨k, hk, hfk⟩ := hch
        simp [hother k (List.mem_cons_of_mem a hk) (fun h => ha (h ▸ hk)) ch hfk]
      cases hf : f a with
      | none => simp [hz, hf]
      | some ch => simp [List.countP_cons, hz, hk₀ ch hf, hf, List.mem_cons]
    · have hih := ih hl' (fun k hk hne => hother k (List.mem_cons_of_mem a hk) hne)
      have hne' : ¬(k₀ = a) := fun h => hak h.symm
      cases hf : f a with
      | none =>
        rw [hih]
        simp [List.mem_cons, hne']
      | some ch =>
        simp [List.countP_cons, hother a (List.mem_cons_self a l) hak ch hf, hih,
          List.mem_cons, hne']

/-- Individual chunks are never category-summary chunks. -/
theorem isCat_expenseChunk (c my : String) (e : Expense) :
    isCatChunkFor c my (createExpenseChunk e) = false := by
  have h : ("individual_expense" == "category_summary") = false := by decide
  simp [isCatChunkFor, createExpenseChunk, h]

/-- Monthly chunks are never category-summary chunks. -/
theorem isCat_monthlyChunk (c my m : String) (exps : List Expense) :
    isCatChunkFor c my (createMonthlySummaryChunk m exps) = false := by
  have h : ("monthly_summary" == "category_summary") = false := by decide
  simp [isCatChunkFor, createMonthlySummaryChunk, h]

/-- Vendor chunks are never category-summary chunks. -/
theorem isCat_vendorChunk (c my v : String) (exps : List Expense) :
    isCatChunkFor c my (createVendorChunk v exps) = false := by
  have h : ("vendor_summary" == "category_summary") = false := by decide
  simp [isCatChunkFor, createVendorChunk, h]

/-- The recognizer on a category-summary chunk reads off its key pair. -/
theorem isCat_catChunk (c my c' my' : String) (exps : List Expense) :
    isCatChunkFor c my (createCategorySummaryChunk c' exps my')
      = ((c' == c) && (my' == my)) := by
  simp [isCatChunkFor, createCategorySummaryChunk, List.lookup]

/-- Individual chunks are never vendor-summary chunks. -/
theorem isVend_expenseChunk (v : String) (e : Expense) :
    isVendChunkFor v (createExpenseChunk e) = false := by
  have h : ("individual_expense" == "vendor_summary") = false := by decide
  simp [isVendChunkFor, createExpenseChunk, h]

/-- Monthly chunks are never vendor-summary chunks. -/
theorem isVend_monthlyChunk (v m : String) (exps : List Expense) :
    isVendChunkFor v (createMonthlySummaryChunk m exps) = false := by
  have h : ("monthly_summary" == "vendor_summary") = false := by decide
  simp [isVendChunkFor, createMonthlySummaryChunk, h]

/-- Category chunks are never vendor-summary chunks. -/
theorem isVend_catChunk (v c' my' : String) (exps : List Expense) :
    isVendChunkFor v (createCategorySummaryChunk c' exps my') = false := by
  have h : ("category_summary" == "vendor_summary") = false := by decide
  simp [isVendChunkFor, createCategorySummaryChunk, h]

/-- The recognizer on a vendor-summary chunk reads off its vendor. -/
theorem isVend_vendorChunk (v v' : String) (exps : List Expense) :
    isVendChunkFor v (createVendorChunk v' exps) = (v' == v) := by
  simp [isVendChunkFor, createVendorChunk, List.lookup]

/-- Category chunks built for a month different from the queried one never
match. -/
theorem countP_cat_otherMonth (c my m : String) (grp : List Expense) (hm : m ≠ my) :
    (createMonthlySummaryChunk m grp :: categoryChunksForMonth m grp).countP
      (isCatChunkFor c my) = 0 := by
  rw [List.countP_cons, isCat_monthlyChunk]
  simp only [Bool.false_eq_true, if_false, Nat.add_zero]
  rw [List.countP_eq_zero]
  intro ch hch
  rw [categoryChunksForMonth, List.mem_filterMap] at hch
  obtain ⟨k, _, hfk⟩ := hch
  by_cases h2 : 2 ≤ (grp.filter (fun e => e.category = k)).length
  · simp only [h2, if_true] at hfk
    injection hfk with hfk
    subst hfk
    simp [isCat_catChunk, hm]
  · simp [h2] at hfk

/-- Count of matching category chunks within the queried month's segment. -/
theorem countP_cat_sameMonth (c my : String) (grp : List Expense) :
    (createMonthlySummaryChunk my grp :: categoryChunksForMonth my grp).countP
      (isCatChunkFor c my)
      = if c ∈ firstKeys (·.category) grp
            ∧ 2 ≤ (grp.filter (fun e => e.category = c)).length
        then 1 else 0 := by
  rw [List.countP_cons, isCat_monthlyChunk]
  simp only [Bool.false_eq_true, if_false, Nat.add_zero]
  rw [categoryChunksForMonth]
  rw [countP_filterMap_single (isCatChunkFor c my) _ _
      (firstKeys_nodup (·.category) grp) c ?hother ?hk]
  case hother =>
    intro k _ hkc ch hfk
    by_cases h2 : 2 ≤ (grp.filter (fun e => e.category = k)).length
    · simp only [h2, if_true] at hfk
      injection hfk with hfk
      subst hfk
      simp [isCat_catChunk, hkc]
    · simp [h2] at hfk
  case hk =>
    intro ch hfk
    by_cases h2 : 2 ≤ (grp.filter (fun e => e.category = c)).length
    · simp only [h2, if_true] at hfk
      injection hfk with hfk
      subst hfk
      simp [isCat_catChunk]
    · simp [h2] at hfk
  by_cases h2 : 2 ≤ (grp.filter (fun e => e.category = c)).length
  · simp [h2]
  · simp [h2]

/-- C4: the chunk builder emits exactly one category-summary chunk per
(category, month) group of at least two records and none otherwise; it
emits exactly one vendor-summary chunk per non-empty vendor with at least
two transactions and none otherwise; appending a record with an empty
vendor leaves the vendor summaries untouched; and the monthly summary of
a non-empty month group counts and totals every record of the month,
vendorless ones included. -/
theorem C4_aggregate_emission (es : List Expense) (c my v : String) (hv : v ≠ "") :
    ((processExpensesToChunks es).countP (isCatChunkFor c my)
        = if 2 ≤ (es.filter (fun e => e.category = c ∧ e.month_year = my)).length
          then 1 else 0)
      ∧ ((processExpensesToChunks es).countP (isVendChunkFor v)
        = if 2 ≤ (es.filter (fun e => e.vendor = v)).length then 1 else 0)
      ∧ (∀ e₀ : Expense, e₀.vendor = "" →
          createVendorChunks (es ++ [e₀]) = createVendorChunks es)
      ∧ ((es.filter (fun e => e.month_year = my)) ≠ [] →
          ∃ ch ∈ processExpensesToChunks es,
            ch.chunk_type = "monthly_summary"
              ∧ ch.metadata.lookup "month_year" = some (.str my)
              ∧ ch.metadata.lookup "expense_count"
                  = some (.num ((es.filter (fun e => e.month_year = my)).length : ℚ))
              ∧ ch.metadata.lookup "total_amount"
                  = some (.num (sumAmounts (es.filter (fun e => e.month_year = my))))) := by
  refine ⟨?_, ?_, ?_, ?_⟩
  · -- category-summary emission count
    by_cases hes : es.isEmpty
    · rw [List.isEmpty_iff] at hes
      subst hes
      simp [processExpensesToChunks]
    · rw [processExpensesToChunks, if_neg (by simpa using hes), List.countP_append,
        List.countP_append]
      have hA : (es.map createExpenseChunk).countP (isCatChunkFor c my) = 0 := by
        rw [List.countP_eq_zero]
        intro ch hch
        rw [List.mem_map] at hch
        obtain ⟨e, _, rfl⟩ := hch
        simp [isCat_expenseChunk]
      have hC : (createVendorChunks es).countP (isCatChunkFor c my) = 0 := by
        rw [List.countP_eq_zero]
        intro ch hch
        rw [createVendorChunks, List.mem_filterMap] at hch
        obtain ⟨k, -, hfk⟩ := hch
        simp at hfk
        obtain ⟨-, rfl⟩ := hfk
        simp [isCat_vendorChunk]
      rw [hA, hC]
      have hB : ((firstKeys (·.month_year) es).flatMap (fun m =>
            createMonthlySummaryChunk m (es.filter (fun e => e.month_year = m))
              :: categoryChunksForMonth m (es.filter (fun e => e.month_year = m)))).countP
            (isCatChunkFor c my)
          = if my ∈ firstKeys (·.month_year) es
              then (createMonthlySummaryChunk my (es.filter (fun e => e.month_year = my))
                :: categoryChunksForMonth my
                  (es.filter (fun e => e.month_year = my))).countP (isCatChunkFor c my)
              else 0 := by
        rw [countP_flatMap_sum]
        exact sum_map_single _ (firstKeys_nodup _ es) _ my
          (fun m _ hm => countP_cat_otherMonth c my m _ hm)
      rw [hB]
      have hgrp : (es.filter (fun e => e.month_year = my)).filter
          (fun e => e.category = c)
          = es.filter (fun e => e.category = c ∧ e.month_year = my) := by
        rw [List.filter_filter]
        apply List.filter_congr
        intro e _
        simp
      by_cases h2 : 2 ≤ (es.filter (fun e => e.category = c ∧ e.month_year = my)).length
      · have hne : es.filter (fun e => e.category = c ∧ e.month_year = my) ≠ [] := by
          intro h
          rw [h] at h2
          simp at h2
        obtain ⟨e₀, he₀⟩ := List.exists_mem_of_ne_nil _ hne
        rw [List.mem_filter] at he₀
        obtain ⟨he₀es, he₀p⟩ := he₀
        have he₀p' : e₀.category = c ∧ e₀.month_year = my := by simpa using he₀p
        have hmem_my : my ∈ firstKeys (·.month_year) es :=
          (mem_firstKeys _ my es).2 ⟨e₀, he₀es, he₀p'.2⟩
        have hmem_c : c ∈ firstKeys (·.category) (es.filter (fun e => e.month_year = my)) := by
          refine (mem_firstKeys _ c _).2 ⟨e₀, ?_, he₀p'.1⟩
          rw [List.mem_filter]
          exact ⟨he₀es, by simpa using he₀p'.2⟩
        rw [if_pos hmem_my, countP_cat_sameMonth, hgrp, if_pos ⟨hmem_c, h2⟩, if_pos h2]
      · rw [if_neg h2]
        by_cases hmy : my ∈ firstKeys (·.month_year) es
        · rw [if_pos hmy, countP_cat_sameMonth, hgrp, if_neg]
          rintro ⟨-, h⟩
          exact h2 h
        · rw [if_neg hmy]
  · -- vendor-summary emission count
    have hfil : (es.filter (fun e => e.vendor ≠ "")).filter (fun e => e.vendor = v)
        = es.filter (fun e => e.vendor = v) := by
      rw [List.filter_filter]
      apply List.filter_congr
      intro e _
      by_cases hev : e.vendor = v
      · simp [hev, hv]
      · simp [hev]
    by_cases hes : es.isEmpty
    · rw [List.isEmpty_iff] at hes
      subst hes
      simp [processExpensesToChunks]
    · rw [processExpensesToChunks, if_neg (by simpa using hes), List.countP_append,
        List.countP_append]
      have hA : (es.map createExpenseChunk).countP (isVendChunkFor v) = 0 := by
        rw [List.countP_eq_zero]
        intro ch hch
        rw [List.mem_map] at hch
        obtain ⟨e, _, rfl⟩ := hch
        simp [isVend_expenseChunk]
      have hB : ((firstKeys (·.month_year) es).flatMap (fun m =>
            createMonthlySummaryChunk m (es.filter (fun e => e.month_year = m))
              :: categoryChunksForMonth m (es.filter (fun e => e.month_year = m)))).countP
            (isVendChunkFor v) = 0 := by
        rw [List.countP_eq_zero]
        intro ch hch
        rw [List.mem_flatMap] at hch
        obtain ⟨m, _, hch⟩ := hch
        rcases List.mem_cons.1 hch with h | h
        · subst h
          simp [isVend_monthlyChunk]
        · rw [categoryChunksForMonth, List.mem_filterMap] at h
          obtain ⟨k, -, hfk⟩ := h
          simp at hfk
          obtain ⟨-, rfl⟩ := hfk
          simp [isVend_catChunk]
      rw [hA, hB]
      rw [createVendorChunks]
      rw [countP_filterMap_single (isVendChunkFor v) _ _
          (firstKeys_nodup (·.vendor) (es.filter (fun e => e.vendor ≠ ""))) v
          ?vother ?vk]
      case vother =>
        intro k _ hkv ch hfk
        simp at hfk
        obtain ⟨-, rfl⟩ := hfk
        simp [isVend_vendorChunk, hkv]
      case vk =>
        intro ch hfk
        simp at hfk
        obtain ⟨-, rfl⟩ := hfk
        simp [isVend_vendorChunk]
      by_cases h2 : 2 ≤ (es.filter (fun e => e.vendor = v)).length
      · have hne : es.filter (fun e => e.vendor = v) ≠ [] := by
          intro h
          rw [h] at h2
          simp at h2
        obtain ⟨e₀, he₀⟩ := List.exists_mem_of_ne_nil _ hne
        rw [List.mem_filter] at he₀
        obtain ⟨he₀es, he₀p⟩ := he₀
        have he₀v : e₀.vendor = v := by simpa using he₀p
        have hmem_v : v ∈ firstKeys (·.vendor) (es.filter (fun e => e.vendor ≠ "")) := by
          refine (mem_firstKeys _ v _).2 ⟨e₀, ?_, he₀v⟩
          rw [List.mem_filter]
          refine ⟨he₀es, by simp [he₀v, hv]⟩
        rw [if_pos h2, if_pos]
        refine ⟨hmem_v, ?_⟩
        rw [hfil]
        simp [h2]
      · rw [if_neg h2, if_neg]
        rintro ⟨-, hsome⟩
        rw [hfil] at hsome
        simp only [h2, if_false] at hsome
        simp at hsome
  · -- vendorless records do not feed vendor summaries
    intro e₀ h0
    rw [createVendorChunks, createVendorChunks, List.filter_append]
    have : List.filter (fun e => decide (e.vendor ≠ "")) [e₀] = [] := by
      simp [h0]
    rw [this, List.append_nil]
  · -- the monthly summary counts and totals the full month group
    intro hne
    have hes : ¬es.isEmpty := by
      intro h
      rw [List.isEmpty_iff] at h
      subst h
      simp at hne
    obtain ⟨e₀, he₀⟩ := List.exists_mem_of_ne_nil _ hne
    rw [List.mem_filter] at he₀
    have hmem_my : my ∈ firstKeys (·.month_year) es :=
      (mem_firstKeys _ my es).2 ⟨e₀, he₀.1, by simpa using he₀.2⟩
    refine ⟨createMonthlySummaryChunk my (es.filter (fun e => e.month_year = my)), ?_, ?_⟩
    · rw [processExpensesToChunks, if_neg (by simpa using hes)]
      refine List.mem_append.2 (Or.inl (List.mem_append.2 (Or.inr ?_)))
      rw [List.mem_flatMap]
      exact ⟨my, hmem_my, List.mem_cons_self _ _⟩
    · refine ⟨rfl, ?_, ?_, ?_⟩ <;>
        simp [createMonthlySummaryChunk, List.lookup]

/-- Witness for C4 at a concrete expense set: the two-record (c1, 2024-01)
group and the two-transaction vendor V each get their summary chunk, the
one-record category c2 gets none, and the counts match the theorem's
characterization. -/
theorem C4_aggregate_emission_witness :
    ((processExpensesToChunks exampleExpenses).countP (isCatChunkFor "c1" "2024-01")
        = if 2 ≤ ((exampleExpenses.filter
            (fun e => e.category = "c1" ∧ e.month_year = "2024-01")).length)
          then 1 else 0)
      ∧ ((processExpensesToChunks exampleExpenses).countP (isVendChunkFor "V")
        = if 2 ≤ ((exampleExpenses.filter (fun e => e.vendor = "V")).length)
          then 1 else 0)
      ∧ (processExpensesToChunks exampleExpenses).countP (isCatChunkFor "c1" "2024-01") = 1
      ∧ (processExpensesToChunks exampleExpenses).countP (isCatChunkFor "c2" "2024-01") = 0
      ∧ (processExpensesToChunks exampleExpenses).countP (isVendChunkFor "V") = 1 := by
  have h := C4_aggregate_emission exampleExpenses "c1" "2024-01" "V" (by decide)
  exact ⟨h.1, h.2.1, by decide, by decide, by decide⟩

end Condo
